import Mathlib

set_option maxRecDepth 100000

/-!
Shallow embedding of the valve state coordinator of the esp32_ro_cyd
repository (src/main/mqtt_relay_client.c and the LVGL UI file with
`toggle_event_cb`, `countdown_timer_cb`, `start_countdown`,
`stop_countdown`, `mqtt_state_callback`, `app_main`).

The embedded state `Sys` holds exactly the mutable globals the coordinator
reads and writes:
  * `seconds_remaining` (C `static int seconds_remaining = 300`),
  * `timer_running`     (C `static bool timer_running = false`),
  * `timer_armed`       (whether the LVGL `countdown_timer` exists and is
                         resumed, i.e. ticks are being delivered),
  * `checked`           (the `LV_STATE_CHECKED` flag of `toggle_btn`),
  * `btn_label`, `timer_label` (the two label texts),
  * `mqtt_connected`    (C `static bool mqtt_connected`).
Side effects towards the broker are returned as an explicit list of
`Publish` records (topic, payload, retained flag).
-/

namespace Valve

/-- An outbound MQTT publish: topic, payload and the retained flag, as
passed to `esp_mqtt_client_publish`. -/
structure Publish where
  topic : String
  payload : String
  retained : Bool
deriving DecidableEq

/-- The coordinator's mutable state: the C globals of the UI file plus the
MQTT connection flag of mqtt_relay_client.c. -/
structure Sys where
  seconds_remaining : Int
  timer_running : Bool
  timer_armed : Bool
  checked : Bool
  btn_label : String
  timer_label : String
  mqtt_connected : Bool
deriving DecidableEq

/-- Macro `STATE_TOPIC`, i.e. `"water_valve/state"`. -/
def STATE_TOPIC : String := "water_valve/state"

/-- Macro `AVAILABILITY_TOPIC`, i.e. `"water_valve/status"`. -/
def AVAILABILITY_TOPIC : String := "water_valve/status"

/-- Macro `DISCOVERY_TOPIC`, i.e. `"homeassistant/switch/water_valve/config"`. -/
def DISCOVERY_TOPIC : String := "homeassistant/switch/water_valve/config"

/-- The Home Assistant discovery JSON built by `publish_discovery_info`
(the `snprintf` result, with the topic and device macros substituted). -/
def discovery_message : String :=
  "\x7b\"name\":\"Water Valve\",\"unique_id\":\"water_valve_controller\"," ++
  "\"state_topic\":\"water_valve/state\",\"command_topic\":\"water_valve/set\"," ++
  "\"payload_on\":\"ON\",\"payload_off\":\"OFF\"," ++
  "\"availability_topic\":\"water_valve/status\"," ++
  "\"payload_available\":\"online\",\"payload_not_available\":\"offline\"," ++
  "\"device\":\x7b\"identifiers\":[\"water_valve_controller\"]," ++
  "\"name\":\"water_valve_controller\",\"model\":\"ESP32CYD\"," ++
  "\"manufacturer\":\"Custom\"\x7d\x7d"

/-- Function `mqtt_is_connected` returns the `mqtt_connected` flag. -/
def mqtt_is_connected (s : Sys) : Bool := s.mqtt_connected

/-- Function `mqtt_publish_relay_state(relay_num, state)`: skipped when not
connected, otherwise publishes `"ON"`/`"OFF"` (retained) on the state
topic. Returns the list of publishes performed. -/
def mqtt_publish_relay_state (s : Sys) (state : Bool) : List Publish :=
  if mqtt_is_connected s then
    [⟨STATE_TOPIC, if state then "ON" else "OFF", true⟩]
  else []

/-- Function `mqtt_publish_all_relay_states` simply calls
`mqtt_publish_relay_state(1, false)`. -/
def mqtt_publish_all_relay_states (s : Sys) : List Publish :=
  mqtt_publish_relay_state s false

/-- Function `publish_discovery_info`: skipped when not connected, otherwise
publishes the discovery JSON (retained). -/
def publish_discovery_info (s : Sys) : List Publish :=
  if mqtt_is_connected s then [⟨DISCOVERY_TOPIC, discovery_message, true⟩]
  else []

/-- C `printf` `"%02d"` formatting: zero-pad nonnegative one-digit values
to width two. -/
def fmt2 (n : Int) : String :=
  if 0 ≤ n ∧ n < 10 then "0" ++ toString n else toString n

/-- The `"%02d:%02d"` string of `update_timer_display`, with C truncating
division and modulo (`Int.tdiv` / `Int.tmod`). -/
def format_time (n : Int) : String :=
  fmt2 (Int.tdiv n 60) ++ ":" ++ fmt2 (Int.tmod n 60)

/-- Function `update_timer_display` sets `timer_label` to the `MM:SS` rendering
of `seconds_remaining`. -/
def update_timer_display (s : Sys) : Sys :=
  { s with timer_label := format_time s.seconds_remaining }

/-- Function `start_countdown` resets `seconds_remaining` to 300, sets
`timer_running`, updates the display, and creates-or-resumes the LVGL
timer (modelled as `timer_armed := true`). -/
def start_countdown (s : Sys) : Sys :=
  update_timer_display
    { s with seconds_remaining := 300, timer_running := true,
             timer_armed := true }

/-- Function `stop_countdown` clears `timer_running`, resets `seconds_remaining`
to 300, pauses the LVGL timer (`timer_armed := false`) and updates the
display. -/
def stop_countdown (s : Sys) : Sys :=
  update_timer_display
    { s with timer_running := false, seconds_remaining := 300,
             timer_armed := false }

/-- Callback `toggle_event_cb` on `LV_EVENT_VALUE_CHANGED`: reads the widget's
checked flag (already reflecting the toggle), sets the button label,
publishes the new state, and starts or stops the countdown. -/
def toggle_event_cb (s : Sys) : Sys × List Publish :=
  if s.checked then
    let s1 := { s with btn_label := "Turn Water Off" }
    (start_countdown s1, mqtt_publish_relay_state s1 true)
  else
    let s1 := { s with btn_label := "Turn Water On" }
    (stop_countdown s1, mqtt_publish_relay_state s1 false)

/-- A user tap on the checkable button: LVGL flips `LV_STATE_CHECKED` and
then delivers `LV_EVENT_VALUE_CHANGED` to `toggle_event_cb`. -/
def user_tap (s : Sys) : Sys × List Publish :=
  toggle_event_cb { s with checked := !s.checked }

/-- Callback `countdown_timer_cb` returns if `timer_running` is false; otherwise
decrements `seconds_remaining`, updates the display, and when the result
is `<= 0` clears the toggle's checked state and label, publishes `OFF`,
and stops the countdown. -/
def countdown_timer_cb (s : Sys) : Sys × List Publish :=
  if !s.timer_running then (s, [])
  else
    let s1 := update_timer_display
      { s with seconds_remaining := s.seconds_remaining - 1 }
    if s1.seconds_remaining ≤ 0 then
      let s2 := { s1 with checked := false, btn_label := "Turn Water On" }
      (stop_countdown s2, mqtt_publish_relay_state s2 false)
    else (s1, [])

/-- Callback `mqtt_state_callback(relay_num, state)` applies the commanded state
to the UI (checked flag and label) and starts the countdown if not
running (for `ON`) or stops it if running (for `OFF`). Performs no
publish itself. -/
def mqtt_state_callback (s : Sys) (state : Bool) : Sys :=
  if state then
    let s1 := { s with checked := true, btn_label := "Turn Water Off" }
    if !s1.timer_running then start_countdown s1 else s1
  else
    let s1 := { s with checked := false, btn_label := "Turn Water On" }
    if s1.timer_running then stop_countdown s1 else s1

/-- The NUL byte. -/
def NUL : Char := Char.ofNat 0

/-- The C string `handle_valve_command` compares: the payload's first
`min(payload_len, 15)` bytes copied into a zero-initialised 16-byte
buffer, read up to the first NUL. -/
def cmd_of_payload (p : List Char) : List Char :=
  (p.take 15).takeWhile (fun c => c ≠ NUL)

/-- Function `handle_valve_command(payload, payload_len)` does a `strcmp` of the
truncated, NUL-terminated command against `"ON"` / `"OFF"`; on a match it
publishes the state (retained) and invokes the registered
`mqtt_state_callback`; any other command is logged and dropped. -/
def handle_valve_command (s : Sys) (p : List Char) : Sys × List Publish :=
  if cmd_of_payload p = "ON".toList then
    (mqtt_state_callback s true, mqtt_publish_relay_state s true)
  else if cmd_of_payload p = "OFF".toList then
    (mqtt_state_callback s false, mqtt_publish_relay_state s false)
  else
    (s, [])

/-- The `MQTT_EVENT_CONNECTED` branch of `mqtt_event_handler`: set
`mqtt_connected`, publish availability `"online"` (retained), publish the
discovery document, subscribe to the command topic, then
`mqtt_publish_relay_state(1, false)`. -/
def on_mqtt_connected (s : Sys) : Sys × List Publish :=
  let s1 := { s with mqtt_connected := true }
  (s1, ⟨AVAILABILITY_TOPIC, "online", true⟩ ::
       (publish_discovery_info s1 ++ mqtt_publish_relay_state s1 false))

/-- The `MQTT_EVENT_DISCONNECTED` branch: clear `mqtt_connected`, publish
nothing. -/
def on_mqtt_disconnected (s : Sys) : Sys × List Publish :=
  ({ s with mqtt_connected := false }, [])

/-- The events that drive the coordinator: a user tap on the toggle, an
inbound command-topic message (with its payload bytes), a one-second LVGL
timer tick, and MQTT connect/disconnect. -/
inductive Ev where
  | userTap
  | remoteCmd (p : List Char)
  | tick
  | connect
  | disconnect
deriving DecidableEq

/-- One step of the coordinator: dispatch an event to the code that
handles it. A tick is delivered only while the LVGL timer is armed. -/
def step (s : Sys) : Ev → Sys × List Publish
  | .userTap => user_tap s
  | .remoteCmd p => handle_valve_command s p
  | .tick => if s.timer_armed then countdown_timer_cb s else (s, [])
  | .connect => on_mqtt_connected s
  | .disconnect => on_mqtt_disconnected s

/-- The boot state: `seconds_remaining = 300`, timer not running and not
created, toggle unchecked, labels as set in `app_lvgl_main`, MQTT not yet
connected. -/
def init : Sys :=
  { seconds_remaining := 300, timer_running := false, timer_armed := false,
    checked := false, btn_label := "Turn Water On",
    timer_label := "05:00", mqtt_connected := false }

/-- States reachable from boot by any event sequence. -/
inductive Reachable : Sys → Prop where
  | boot : Reachable init
  | next (s : Sys) (e : Ev) : Reachable s → Reachable (step s e).1

/-- Iterated delivery of timer ticks. -/
def ticks : Nat → Sys → Sys
  | 0, s => s
  | n + 1, s => ticks n (step s .tick).1

/-- Run a list of events, collecting the final state and all publishes in
order. -/
def runFrom (s : Sys) : List Ev → Sys × List Publish
  | [] => (s, [])
  | e :: es =>
    let r := step s e
    let r2 := runFrom r.1 es
    (r2.1, r.2 ++ r2.2)

/-- The state invariant maintained by the coordinator: the countdown is in
range, positive while the valve is open, at full duration while closed,
and the LVGL timer is armed exactly while the countdown runs. -/
def Inv (s : Sys) : Prop :=
  0 ≤ s.seconds_remaining ∧ s.seconds_remaining ≤ 300 ∧
  (s.timer_running = true → 0 < s.seconds_remaining) ∧
  (s.timer_running = false → s.seconds_remaining = 300) ∧
  s.timer_armed = s.timer_running

/-- The state right after the first MQTT connect from boot. -/
def s0c : Sys := (step init .connect).1

/-- The open state reached from `s0c` by a remote `"ON"` command. -/
def sOpen : Sys := (step s0c (.remoteCmd "ON".toList)).1

/-- The open state reached from `s0c` by a user tap. -/
def after_user_open : Sys := (step s0c .userTap).1

/-- A concrete connected open state one second before expiry. -/
def sNearExpiry : Sys :=
  { seconds_remaining := 1, timer_running := true, timer_armed := true,
    checked := true, btn_label := "Turn Water Off", timer_label := "00:01",
    mqtt_connected := true }

lemma inv_start_countdown (s : Sys) : Inv (start_countdown s) := by
  simp [Inv, start_countdown, update_timer_display]

lemma inv_stop_countdown (s : Sys) : Inv (stop_countdown s) := by
  simp [Inv, stop_countdown, update_timer_display]

lemma inv_state_callback (s : Sys) (b : Bool) (h : Inv s) :
    Inv (mqtt_state_callback s b) := by
  obtain ⟨h0, h1, h2, h3, h4⟩ := h
  unfold mqtt_state_callback
  cases b <;> dsimp only <;> split_ifs <;>
    first
      | exact inv_start_countdown _
      | exact inv_stop_countdown _
      | exact ⟨h0, h1, h2, h3, h4⟩

lemma inv_timer_cb (s : Sys) (h : Inv s) : Inv (countdown_timer_cb s).1 := by
  obtain ⟨h0, h1, h2, h3, h4⟩ := h
  unfold countdown_timer_cb
  dsimp only
  split_ifs with hr hz
  · exact ⟨h0, h1, h2, h3, h4⟩
  · exact inv_stop_countdown _
  · have hrt : s.timer_running = true := by
      revert hr; cases s.timer_running <;> simp
    have hz2 : ¬(s.seconds_remaining - 1 ≤ 0) := hz
    refine ⟨?_, ?_, ?_, ?_, ?_⟩
    · show 0 ≤ s.seconds_remaining - 1
      omega
    · show s.seconds_remaining - 1 ≤ 300
      omega
    · intro _
      show 0 < s.seconds_remaining - 1
      omega
    · intro hf
      have hf2 : s.timer_running = false := hf
      rw [hrt] at hf2
      exact absurd hf2 (by simp)
    · show s.timer_armed = s.timer_running
      exact h4

lemma inv_step (s : Sys) (e : Ev) (h : Inv s) : Inv (step s e).1 := by
  obtain ⟨h0, h1, h2, h3, h4⟩ := h
  cases e with
  | userTap =>
    simp only [step, user_tap, toggle_event_cb]
    split
    · exact inv_start_countdown _
    · exact inv_stop_countdown _
  | remoteCmd p =>
    simp only [step, handle_valve_command]
    split
    · exact inv_state_callback _ _ ⟨h0, h1, h2, h3, h4⟩
    · split
      · exact inv_state_callback _ _ ⟨h0, h1, h2, h3, h4⟩
      · exact ⟨h0, h1, h2, h3, h4⟩
  | tick =>
    simp only [step]
    split
    · exact inv_timer_cb _ ⟨h0, h1, h2, h3, h4⟩
    · exact ⟨h0, h1, h2, h3, h4⟩
  | connect =>
    simp only [step, on_mqtt_connected]
    exact ⟨h0, h1, h2, h3, h4⟩
  | disconnect =>
    simp only [step, on_mqtt_disconnected]
    exact ⟨h0, h1, h2, h3, h4⟩

lemma reachable_inv (s : Sys) (h : Reachable s) : Inv s := by
  induction h with
  | boot => exact ⟨by decide, by decide, by decide, by decide, rfl⟩
  | next s e _ ih => exact inv_step s e ih

lemma tick_open (s : Sys) (hr : s.timer_running = true) (ha : s.timer_armed = true)
    (hgt : 1 < s.seconds_remaining) :
    (step s .tick).1.seconds_remaining = s.seconds_remaining - 1 ∧
    (step s .tick).1.timer_running = true := by
  have h1 : ¬(s.seconds_remaining - 1 ≤ 0) := by omega
  simp [step, ha, countdown_timer_cb, hr, update_timer_display, h1]

lemma connect_publishes (s : Sys) :
    (step s .connect).2 =
      [⟨AVAILABILITY_TOPIC, "online", true⟩,
       ⟨DISCOVERY_TOPIC, discovery_message, true⟩,
       ⟨STATE_TOPIC, "OFF", true⟩] := by
  simp [step, on_mqtt_connected, publish_discovery_info,
        mqtt_publish_relay_state, mqtt_is_connected]

lemma handle_on (s : Sys) :
    handle_valve_command s ("ON".toList) =
      (mqtt_state_callback s true, mqtt_publish_relay_state s true) := by
  unfold handle_valve_command
  rw [if_pos (by decide)]

lemma handle_off (s : Sys) :
    handle_valve_command s ("OFF".toList) =
      (mqtt_state_callback s false, mqtt_publish_relay_state s false) := by
  unfold handle_valve_command
  rw [if_neg (by decide), if_pos (by decide)]

/-- Claim C5: in every state reachable from the initial CLOSED state,
`seconds_remaining` lies in `0..300`, is positive whenever the valve is
open (`timer_running`), equals 300 whenever it is closed, and is never
negative; a tick delivered while open with more than one second left
decreases `seconds_remaining` by exactly 1 and keeps the valve open. -/
theorem C5_countdown_invariant (s : Sys) (h : Reachable s) :
    (0 ≤ s.seconds_remaining ∧ s.seconds_remaining ≤ 300) ∧
    (s.timer_running = true → 0 < s.seconds_remaining) ∧
    (s.timer_running = false → s.seconds_remaining = 300) ∧
    (s.timer_running = true → 1 < s.seconds_remaining →
      (step s .tick).1.seconds_remaining = s.seconds_remaining - 1 ∧
      (step s .tick).1.timer_running = true) := by
  obtain ⟨h0, h1, h2, h3, h4⟩ := reachable_inv s h
  exact ⟨⟨h0, h1⟩, h2, h3, fun hr hgt => tick_open s hr (by rw [h4, hr]) hgt⟩

/-- Witness for C5 at the concrete reachable states `sOpen` (open) and
`s0c` (closed). -/
theorem C5_countdown_invariant_witness :
    (0 ≤ sOpen.seconds_remaining ∧ sOpen.seconds_remaining ≤ 300) ∧
    0 < sOpen.seconds_remaining ∧
    s0c.seconds_remaining = 300 ∧
    (step sOpen .tick).1.seconds_remaining = sOpen.seconds_remaining - 1 ∧
    (step sOpen .tick).1.timer_running = true := by
  have h := C5_countdown_invariant sOpen
    (Reachable.next s0c (.remoteCmd ("ON".toList))
      (Reachable.next init .connect Reachable.boot))
  have h2 := C5_countdown_invariant s0c
    (Reachable.next init .connect Reachable.boot)
  exact ⟨h.1, h.2.1 (by decide), h2.2.2.1 (by decide),
         h.2.2.2 (by decide) (by decide)⟩

/-- Claim C4: every MQTT (re)connect unconditionally publishes the literal
string "OFF" (retained) to the state topic, `mqtt_publish_all_relay_states`
likewise always publishes "OFF" when connected, and there is a reachable
open state (valve OPEN) for which reconnecting still publishes "OFF" —
so the retained state-topic payload disagrees with the canonical valve
state there. -/
theorem C4_connect_always_publishes_off :
    (∀ s : Sys, (step s .connect).2 =
      [⟨AVAILABILITY_TOPIC, "online", true⟩,
       ⟨DISCOVERY_TOPIC, discovery_message, true⟩,
       ⟨STATE_TOPIC, "OFF", true⟩]) ∧
    (∀ s : Sys, mqtt_publish_all_relay_states s =
      if s.mqtt_connected then [⟨STATE_TOPIC, "OFF", true⟩] else []) ∧
    (Reachable sOpen ∧ sOpen.timer_running = true ∧
      Publish.mk STATE_TOPIC "OFF" true ∈ (step sOpen .connect).2) := by
  refine ⟨connect_publishes, fun s => ?_, ?_, by decide, by decide⟩
  · simp [mqtt_publish_all_relay_states, mqtt_publish_relay_state, mqtt_is_connected]
  · exact Reachable.next s0c (.remoteCmd ("ON".toList))
      (Reachable.next init .connect Reachable.boot)

/-- Claim C3 counterexample: at connect time the gateway does not publish
only availability and discovery documents — it also publishes the
coordinator's valve state topic (with payload "OFF"). -/
theorem C3_counterexample :
    Publish.mk STATE_TOPIC "OFF" true ∈ (step init .connect).2 ∧
    (step init .connect).2.length = 3 := by decide

/-- Claim C3 amended: at connect time the gateway publishes availability,
the discovery document, and additionally an unconditional "OFF" to the
state topic; a disconnect publishes nothing. Outside the connect event,
the state topic is published only as a side effect of transitions. -/
theorem C3_amended (s : Sys) :
    (step s .connect).2 =
      [⟨AVAILABILITY_TOPIC, "online", true⟩,
       ⟨DISCOVERY_TOPIC, discovery_message, true⟩,
       ⟨STATE_TOPIC, "OFF", true⟩] ∧
    (step s .disconnect).2 = [] :=
  ⟨connect_publishes s, rfl⟩

/-- Claim C1 counterexample: a transition with origin RemoteCommand (the
inbound "ON" that opens the closed valve) does produce an outbound
publish of the resulting valve state — `handle_valve_command` echoes a
state publish for every accepted command. -/
theorem C1_counterexample :
    s0c.timer_running = false ∧
    (step s0c (.remoteCmd ("ON".toList))).1.timer_running = true ∧
    (step s0c (.remoteCmd ("ON".toList))).2 = [⟨STATE_TOPIC, "ON", true⟩] := by
  decide

/-- Claim C1 amended: while connected, transitions of every origin publish
the new state (retained) — including RemoteCommand, whose accepted
command is echoed back to the state topic; a UserToggle transition never
re-applies the toggle's checked visual state (`toggle_event_cb` leaves
`checked` unchanged). -/
theorem C1_amended (s : Sys) :
    (s.mqtt_connected = true →
      (step s (.remoteCmd ("ON".toList))).2 = [⟨STATE_TOPIC, "ON", true⟩] ∧
      (step s (.remoteCmd ("OFF".toList))).2 = [⟨STATE_TOPIC, "OFF", true⟩]) ∧
    (s.mqtt_connected = true →
      (step s .userTap).2 =
        [⟨STATE_TOPIC, if s.checked then "OFF" else "ON", true⟩]) ∧
    (s.mqtt_connected = true → s.timer_running = true → s.timer_armed = true →
      s.seconds_remaining ≤ 1 →
      (step s .tick).2 = [⟨STATE_TOPIC, "OFF", true⟩]) ∧
    (toggle_event_cb s).1.checked = s.checked := by
  refine ⟨fun hc => ⟨?_, ?_⟩, fun hc => ?_, fun hc hr ha hz => ?_, ?_⟩
  · simp only [step]
    rw [handle_on]
    simp [mqtt_publish_relay_state, mqtt_is_connected, hc]
  · simp only [step]
    rw [handle_off]
    simp [mqtt_publish_relay_state, mqtt_is_connected, hc]
  · cases hck : s.checked <;>
      simp [step, user_tap, toggle_event_cb, mqtt_publish_relay_state,
            mqtt_is_connected, hc, hck]
  · simp [step, ha, countdown_timer_cb, hr, update_timer_display,
          show s.seconds_remaining - 1 ≤ 0 by omega,
          mqtt_publish_relay_state, mqtt_is_connected, hc]
  · unfold toggle_event_cb start_countdown stop_countdown update_timer_display
    split_ifs <;> rfl

/-- Witness for C1 amended at concrete connected states. -/
theorem C1_amended_witness :
    (step s0c (.remoteCmd ("ON".toList))).2 = [⟨STATE_TOPIC, "ON", true⟩] ∧
    (step s0c .userTap).2 =
      [⟨STATE_TOPIC, if s0c.checked then "OFF" else "ON", true⟩] ∧
    (step sNearExpiry .tick).2 = [⟨STATE_TOPIC, "OFF", true⟩] :=
  ⟨((C1_amended s0c).1 (by decide)).1,
   (C1_amended s0c).2.1 (by decide),
   (C1_amended sNearExpiry).2.2.1 (by decide) (by decide) (by decide) (by decide)⟩

/-- Claim C2 counterexample: a duplicate remote "ON" while the valve is
already open is not free of side effects — it re-publishes the state. -/
theorem C2_counterexample :
    sOpen.timer_running = true ∧
    (step sOpen (.remoteCmd ("ON".toList))).2 = [⟨STATE_TOPIC, "ON", true⟩] ∧
    (step sOpen (.remoteCmd ("ON".toList))).2 ≠ [] := by decide

/-- Claim C2 amended: a duplicate remote "ON" while open (or "OFF" while
closed) does not restart the countdown and does not re-arm or pause the
timer — `seconds_remaining`, `timer_running` and `timer_armed` are
unchanged — but it is not publish-free: the commanded state is
re-published (echoed) whenever connected, and the toggle visual state and
labels are re-applied. -/
theorem C2_amended (s : Sys) :
    (s.timer_running = true →
      (step s (.remoteCmd ("ON".toList))).1.seconds_remaining = s.seconds_remaining ∧
      (step s (.remoteCmd ("ON".toList))).1.timer_running = s.timer_running ∧
      (step s (.remoteCmd ("ON".toList))).1.timer_armed = s.timer_armed ∧
      (step s (.remoteCmd ("ON".toList))).2 = mqtt_publish_relay_state s true) ∧
    (s.timer_running = false →
      (step s (.remoteCmd ("OFF".toList))).1.seconds_remaining = s.seconds_remaining ∧
      (step s (.remoteCmd ("OFF".toList))).1.timer_running = s.timer_running ∧
      (step s (.remoteCmd ("OFF".toList))).1.timer_armed = s.timer_armed ∧
      (step s (.remoteCmd ("OFF".toList))).2 = mqtt_publish_relay_state s false) := by
  constructor
  · intro hr
    simp only [step]
    rw [handle_on]
    simp [mqtt_state_callback, hr]
  · intro hr
    simp only [step]
    rw [handle_off]
    simp [mqtt_state_callback, hr]

/-- Witness for C2 amended: the duplicate remote "ON" at the concrete open
state `sOpen` and the duplicate remote "OFF" at the closed state `s0c`. -/
theorem C2_amended_witness :
    (step sOpen (.remoteCmd ("ON".toList))).1.seconds_remaining =
      sOpen.seconds_remaining ∧
    (step s0c (.remoteCmd ("OFF".toList))).1.seconds_remaining =
      s0c.seconds_remaining :=
  ⟨((C2_amended sOpen).1 (by decide)).1, ((C2_amended s0c).2 (by decide)).1⟩

/-- Claim C8 counterexample: the payload consisting of the bytes
`'O' 'N' NUL` is not the string "ON" (nor "OFF"), yet it causes a state
change and a publish — `handle_valve_command` compares the NUL-truncated
copy of the payload, not the exact payload. -/
theorem C8_counterexample :
    (step s0c (.remoteCmd ['O', 'N', NUL])).1 ≠ s0c ∧
    (step s0c (.remoteCmd ['O', 'N', NUL])).2 ≠ [] ∧
    ['O', 'N', NUL] ≠ "ON".toList ∧ ['O', 'N', NUL] ≠ "OFF".toList := by
  decide

/-- Claim C8 amended: a command-topic message causes a state change
precisely when the C string obtained from its payload — the first
`min(len, 15)` bytes read up to the first NUL — equals "ON" or "OFF"
(case-sensitive); every other payload is dropped with no state
transition, no publish, and no display change. -/
theorem C8_amended (s : Sys) (p : List Char) :
    (cmd_of_payload p ≠ "ON".toList → cmd_of_payload p ≠ "OFF".toList →
      step s (.remoteCmd p) = (s, [])) ∧
    (cmd_of_payload p = "ON".toList →
      step s (.remoteCmd p) =
        (mqtt_state_callback s true, mqtt_publish_relay_state s true)) ∧
    (cmd_of_payload p = "OFF".toList →
      step s (.remoteCmd p) =
        (mqtt_state_callback s false, mqtt_publish_relay_state s false)) := by
  have e1 : "ON".toList = ['O', 'N'] := by decide
  have e2 : "OFF".toList = ['O', 'F', 'F'] := by decide
  refine ⟨fun h1 h2 => ?_, fun h1 => ?_, fun h2 => ?_⟩
  · rw [e1] at h1
    rw [e2] at h2
    simp [step, handle_valve_command, h1, h2]
  · rw [e1] at h1
    simp [step, handle_valve_command, h1]
  · have h1 : cmd_of_payload p ≠ ['O', 'N'] := by rw [h2]; decide
    rw [e2] at h2
    simp [step, handle_valve_command, h1, h2]

/-- Witness for C8 amended: the lowercase payload "on" is dropped, the
exact payload "ON" opens the valve. -/
theorem C8_amended_witness :
    step s0c (.remoteCmd ("on".toList)) = (s0c, []) ∧
    step s0c (.remoteCmd ("ON".toList)) =
      (mqtt_state_callback s0c true, mqtt_publish_relay_state s0c true) ∧
    step sOpen (.remoteCmd ("OFF".toList)) =
      (mqtt_state_callback sOpen false, mqtt_publish_relay_state sOpen false) :=
  ⟨(C8_amended s0c ("on".toList)).1 (by decide) (by decide),
   (C8_amended s0c ("ON".toList)).2.1 (by decide),
   (C8_amended sOpen ("OFF".toList)).2.2 (by decide)⟩

/-- Claim C7: closing the valve via any origin — user toggle, remote "OFF"
command, or timer expiry — always leaves `seconds_remaining = 300` with
the timer stopped, and opening from CLOSED (via user toggle or remote
"ON") always sets `seconds_remaining` to 300 before the first tick. -/
theorem C7_reset_on_close (s : Sys) :
    (s.checked = true →
      (step s .userTap).1.seconds_remaining = 300 ∧
      (step s .userTap).1.timer_running = false) ∧
    (s.timer_running = true →
      (step s (.remoteCmd ("OFF".toList))).1.seconds_remaining = 300 ∧
      (step s (.remoteCmd ("OFF".toList))).1.timer_running = false) ∧
    (s.timer_running = true → s.timer_armed = true → s.seconds_remaining ≤ 1 →
      (step s .tick).1.seconds_remaining = 300 ∧
      (step s .tick).1.timer_running = false) ∧
    (s.checked = false →
      (step s .userTap).1.seconds_remaining = 300 ∧
      (step s .userTap).1.timer_running = true) ∧
    (s.timer_running = false →
      (step s (.remoteCmd ("ON".toList))).1.seconds_remaining = 300 ∧
      (step s (.remoteCmd ("ON".toList))).1.timer_running = true) := by
  refine ⟨fun hc => ?_, fun hr => ?_, fun hr ha hz => ?_, fun hc => ?_, fun hr => ?_⟩
  · simp [step, user_tap, toggle_event_cb, hc, stop_countdown, update_timer_display]
  · simp only [step]
    rw [handle_off]
    simp [mqtt_state_callback, hr, stop_countdown, update_timer_display]
  · simp [step, ha, countdown_timer_cb, hr, update_timer_display,
          show s.seconds_remaining - 1 ≤ 0 by omega, stop_countdown]
  · simp [step, user_tap, toggle_event_cb, hc, start_countdown, update_timer_display]
  · simp only [step]
    rw [handle_on]
    simp [mqtt_state_callback, hr, start_countdown, update_timer_display]

/-- Witness for C7 at concrete states covering all five close/open paths. -/
theorem C7_reset_on_close_witness :
    (step after_user_open .userTap).1.seconds_remaining = 300 ∧
    (step sOpen (.remoteCmd ("OFF".toList))).1.seconds_remaining = 300 ∧
    (step sNearExpiry .tick).1.seconds_remaining = 300 ∧
    (step s0c .userTap).1.seconds_remaining = 300 ∧
    (step s0c (.remoteCmd ("ON".toList))).1.seconds_remaining = 300 :=
  ⟨((C7_reset_on_close after_user_open).1 (by decide)).1,
   ((C7_reset_on_close sOpen).2.1 (by decide)).1,
   ((C7_reset_on_close sNearExpiry).2.2.1 (by decide) (by decide) (by decide)).1,
   ((C7_reset_on_close s0c).2.2.2.1 (by decide)).1,
   ((C7_reset_on_close s0c).2.2.2.2 (by decide)).1⟩

/-- Claim C6: starting CLOSED (and connected), a user toggle yields
OPEN(300) with exactly one retained "ON" publish and the timer armed;
after k ticks (k < 300) the state is OPEN(300 - k); after 299 ticks it is
OPEN(1); the 300th tick closes the valve with exactly one retained "OFF"
publish, `seconds_remaining` reset to 300, and the timer paused. -/
theorem C6_scenario :
    (step s0c .userTap).2 = [⟨STATE_TOPIC, "ON", true⟩] ∧
    after_user_open.seconds_remaining = 300 ∧
    after_user_open.timer_running = true ∧
    after_user_open.timer_armed = true ∧
    (∀ k : Fin 300,
      (ticks k.val after_user_open).seconds_remaining = 300 - (k.val : Int) ∧
      (ticks k.val after_user_open).timer_running = true) ∧
    (ticks 299 after_user_open).seconds_remaining = 1 ∧
    (step (ticks 299 after_user_open) .tick).2 = [⟨STATE_TOPIC, "OFF", true⟩] ∧
    (step (ticks 299 after_user_open) .tick).1.seconds_remaining = 300 ∧
    (step (ticks 299 after_user_open) .tick).1.timer_running = false ∧
    (step (ticks 299 after_user_open) .tick).1.timer_armed = false := by
  decide

/-- Claim C9: a transition requested while disconnected performs no
publish, and the local state transition (state update, display update,
timer arm/pause) is exactly the one performed when connected, apart from
the `mqtt_connected` flag itself. -/
theorem C9_offline_transition (s : Sys) (p : List Char) :
    ((step { s with mqtt_connected := false } .userTap).2 = [] ∧
     (step { s with mqtt_connected := false } (.remoteCmd p)).2 = [] ∧
     (step { s with mqtt_connected := false } .tick).2 = []) ∧
    ((step { s with mqtt_connected := false } .userTap).1 =
       { (step { s with mqtt_connected := true } .userTap).1 with
           mqtt_connected := false } ∧
     (step { s with mqtt_connected := false } (.remoteCmd p)).1 =
       { (step { s with mqtt_connected := true } (.remoteCmd p)).1 with
           mqtt_connected := false } ∧
     (step { s with mqtt_connected := false } .tick).1 =
       { (step { s with mqtt_connected := true } .tick).1 with
           mqtt_connected := false }) := by
  refine ⟨⟨?_, ?_, ?_⟩, ?_, ?_, ?_⟩ <;>
    cases hc : s.checked <;> cases hr : s.timer_running <;>
    cases ha : s.timer_armed <;>
    by_cases h1 : cmd_of_payload p = ['O', 'N'] <;>
    by_cases h2 : cmd_of_payload p = ['O', 'F', 'F'] <;>
    by_cases hz : s.seconds_remaining - 1 ≤ 0 <;>
    simp [step, user_tap, toggle_event_cb, handle_valve_command,
          mqtt_state_callback, countdown_timer_cb, start_countdown,
          stop_countdown, update_timer_display, mqtt_publish_relay_state,
          mqtt_is_connected, hc, hr, ha, h1, h2, hz]

/-- Claim C10 counterexample: serialising the near-simultaneous
`request_open(UserToggle)` and `request_open(RemoteCommand)` in
user-first order yields two outbound publishes, not exactly one. -/
theorem C10_counterexample :
    (runFrom s0c [.userTap, .remoteCmd ("ON".toList)]).2 =
      [⟨STATE_TOPIC, "ON", true⟩, ⟨STATE_TOPIC, "ON", true⟩] ∧
    (runFrom s0c [.userTap, .remoteCmd ("ON".toList)]).2.length ≠ 1 := by
  decide

/-- Claim C10 amended: serialised in either order, the pair of requests
produces two publishes, never one: user-first ends OPEN(300) with two
retained "ON" publishes (the remote command is echoed); remote-first ends
CLOSED with `seconds_remaining = 300` and publishes "ON" then "OFF",
because the user tap toggles the already-checked button back off. -/
theorem C10_amended :
    ((runFrom s0c [.userTap, .remoteCmd ("ON".toList)]).1.timer_running = true ∧
     (runFrom s0c [.userTap, .remoteCmd ("ON".toList)]).1.seconds_remaining = 300 ∧
     (runFrom s0c [.userTap, .remoteCmd ("ON".toList)]).2 =
       [⟨STATE_TOPIC, "ON", true⟩, ⟨STATE_TOPIC, "ON", true⟩]) ∧
    ((runFrom s0c [.remoteCmd ("ON".toList), .userTap]).1.timer_running = false ∧
     (runFrom s0c [.remoteCmd ("ON".toList), .userTap]).1.seconds_remaining = 300 ∧
     (runFrom s0c [.remoteCmd ("ON".toList), .userTap]).2 =
       [⟨STATE_TOPIC, "ON", true⟩, ⟨STATE_TOPIC, "OFF", true⟩]) := by
  decide

end Valve
